import Mathlib

/-!
Verification of the versioned record store and diff engine of the Toronto
address change tracker (src/db.py and src/diff.py), as a shallow embedding.

SQLite column values are dynamically typed; a stored value is NULL, an
integer, a real, or a text.  Real numbers are modelled as rationals: the
claims under study only use equality, comparison with 0 and with 180, and
Python float repr is injective on distinct values, which the rational model
preserves.
-/

namespace TorontoAddr

/-- One SQLite value as held in a column of the `addresses` table. -/
inductive Value
  | vnull
  | vint (n : Int)
  | vreal (q : ℚ)
  | vtext (s : String)
  deriving DecidableEq

/-- Python `val == 0` for a stored value (numeric zero of either numeric type;
`None == 0` and `"0" == 0` are both false in Python). -/
def Value.isZero : Value → Bool
  | .vint n => n == 0
  | .vreal q => q == 0
  | _ => false

/-- Python truthiness of a stored value, as used by the `x or y` chains in
`compute_diff` (None, numeric zero and the empty string are falsy). -/
def Value.truthy : Value → Bool
  | .vnull => false
  | .vint n => !(n == 0)
  | .vreal q => !(q == 0)
  | .vtext s => !(s == "")

/-- Rendering of a real value by Python `str`: integral floats print with a
trailing `.0` (so `str(3.0) = "3.0"` differs from `str(3) = "3"`); for
non-integral values we use the reduced fraction, an injective stand-in for
the (injective) shortest round-trip float repr. -/
def ratStr (q : ℚ) : String :=
  if q.den = 1 then toString q.num ++ ".0" else toString q

/-- Python `str` of a stored value (`str` of a text is the text itself, so a
text and a number sharing a rendering compare equal in `_values_differ`,
exactly as in the source). -/
def Value.pyStr : Value → String
  | .vnull => "None"
  | .vint n => toString n
  | .vreal q => ratStr q
  | .vtext s => s

/-- `_values_differ` from src/diff.py: None/None equal; numeric zero versus
None equal; one-sided None differs; otherwise compare by `str`. -/
def valuesDiffer (a b : Value) : Bool :=
  if a = .vnull ∧ b = .vnull then false
  else if (a.isZero ∧ b = .vnull) ∨ (a = .vnull ∧ b.isZero) then false
  else if a = .vnull ∨ b = .vnull then true
  else a.pyStr != b.pyStr

/-- `_is_projected` from src/diff.py: a numeric coordinate value with absolute
magnitude above 180 (non-numeric values are never considered projected). -/
def isProjected : Value → Bool
  | .vint n => 180 < n.natAbs
  | .vreal q => 180 < |q|
  | _ => false

/-- The fourteen columns of `COMPARE_COLUMNS` in src/diff.py (every tracked
column except the `address_point_id` key, plus the two coordinates). -/
structure Fields where
  address_full : Value
  address_number : Value
  lo_num : Value
  lo_num_suf : Value
  hi_num : Value
  hi_num_suf : Value
  linear_name_full : Value
  linear_name : Value
  linear_name_type : Value
  linear_name_dir : Value
  municipality_name : Value
  ward_name : Value
  longitude : Value
  latitude : Value
  deriving DecidableEq

/-- `COMPARE_COLUMNS` of src/diff.py as a name/accessor association list, in
source order. -/
def COMPARE_COLUMNS : List (String × (Fields → Value)) :=
  [("address_full", Fields.address_full),
   ("address_number", Fields.address_number),
   ("lo_num", Fields.lo_num),
   ("lo_num_suf", Fields.lo_num_suf),
   ("hi_num", Fields.hi_num),
   ("hi_num_suf", Fields.hi_num_suf),
   ("linear_name_full", Fields.linear_name_full),
   ("linear_name", Fields.linear_name),
   ("linear_name_type", Fields.linear_name_type),
   ("linear_name_dir", Fields.linear_name_dir),
   ("municipality_name", Fields.municipality_name),
   ("ward_name", Fields.ward_name),
   ("longitude", Fields.longitude),
   ("latitude", Fields.latitude)]

/-- One `{field, old, new}` change record of the diff output. -/
structure Change where
  field : String
  old : Value
  new : Value
  deriving DecidableEq

/-- The inner loop of `compute_diff` building the changes list of one modified
entity: every compare column except the two coordinates, kept when
`_values_differ` holds. -/
def changesFor (o n : Fields) : List Change :=
  COMPARE_COLUMNS.filterMap (fun c =>
    if c.1 = "latitude" ∨ c.1 = "longitude" then none
    else if valuesDiffer (c.2 o) (c.2 n) then some ⟨c.1, c.2 o, c.2 n⟩
    else none)

/-- Python `x or y` on stored values (first operand when truthy, else second). -/
def pyOr (a b : Value) : Value :=
  if a.truthy then a else b

/-- One row of the `addresses` table: a row-version with its validity range
`[min_snapshot_id, max_snapshot_id]`, entity key, compared fields, and the
untracked overflow column `extra`. -/
structure AddrRow where
  min_snapshot_id : Nat
  max_snapshot_id : Nat
  address_point_id : Int
  fields : Fields
  extra : Value
  deriving DecidableEq

/-- A row-version is active in snapshot `s` when `s` lies in its validity
range (`min_snapshot_id <= s <= max_snapshot_id`). -/
def activeIn (s : Nat) (r : AddrRow) : Bool :=
  decide (r.min_snapshot_id ≤ s) && decide (s ≤ r.max_snapshot_id)

/-- One entry of the modified list of `compute_diff`. -/
structure ModEntry where
  address_point_id : Int
  address_full : Value
  municipality_name : Value
  latitude : Value
  longitude : Value
  changes : List Change
  deriving DecidableEq

/-- The per-join-row body of the modified loop in `compute_diff`: skip the
entity when any of the four coordinate values is projected or when either
coordinate differs; otherwise build the changes list and keep the entity
only when that list is non-empty. -/
def modEntry (o n : AddrRow) : Option ModEntry :=
  if isProjected o.fields.latitude || isProjected o.fields.longitude
      || isProjected n.fields.latitude || isProjected n.fields.longitude
      || valuesDiffer o.fields.latitude n.fields.latitude
      || valuesDiffer o.fields.longitude n.fields.longitude then
    none
  else
    let changes := changesFor o.fields n.fields
    if changes.isEmpty then none
    else some
      { address_point_id := o.address_point_id
        address_full := pyOr n.fields.address_full (pyOr o.fields.address_full (.vtext ""))
        municipality_name :=
          pyOr n.fields.municipality_name (pyOr o.fields.municipality_name (.vtext ""))
        latitude := n.fields.latitude
        longitude := n.fields.longitude
        changes := changes }

/-- The added query of `compute_diff`: rows active in `newId` whose entity key
has no row active in `oldId` (existence test by range containment). -/
def addedRows (db : List AddrRow) (oldId newId : Nat) : List AddrRow :=
  db.filter (fun n => activeIn newId n &&
    !(db.any (fun o => o.address_point_id == n.address_point_id && activeIn oldId o)))

/-- The removed query of `compute_diff`: rows active in `oldId` whose entity
key has no row active in `newId`. -/
def removedRows (db : List AddrRow) (oldId newId : Nat) : List AddrRow :=
  db.filter (fun o => activeIn oldId o &&
    !(db.any (fun n => n.address_point_id == o.address_point_id && activeIn newId n)))

/-- The modified join of `compute_diff`: pairs of rows with the same entity
key, the first active in `oldId`, the second active in `newId`, stored as
different versions (`min_snapshot_id` differs). -/
def modifiedPairs (db : List AddrRow) (oldId newId : Nat) : List (AddrRow × AddrRow) :=
  db.flatMap (fun o => (db.filter (fun n =>
    n.address_point_id == o.address_point_id && activeIn oldId o && activeIn newId n
      && !(o.min_snapshot_id == n.min_snapshot_id))).map (fun n => (o, n)))

/-- The result dictionary of `compute_diff`. -/
structure DiffResult where
  old_snapshot_id : Nat
  new_snapshot_id : Nat
  added : List AddrRow
  removed : List AddrRow
  modified : List ModEntry
  deriving DecidableEq

/-- `compute_diff` from src/diff.py over an addresses table. -/
def computeDiff (db : List AddrRow) (oldId newId : Nat) : DiffResult :=
  { old_snapshot_id := oldId
    new_snapshot_id := newId
    added := addedRows db oldId newId
    removed := removedRows db oldId newId
    modified := (modifiedPairs db oldId newId).filterMap (fun p => modEntry p.1 p.2) }

/-- One row of the `snapshots` table (the download timestamp plays no role in
the verified claims and is omitted). -/
structure Snapshot where
  id : Nat
  filename : String
  row_count : Nat
  deriving DecidableEq

/-- One row of the temporary `staging_addresses` table: a parsed record before
any validity range is attached. -/
structure StagedRow where
  address_point_id : Int
  fields : Fields
  extra : Value
  deriving DecidableEq

/-- The store: the `snapshots` and `addresses` tables. -/
structure DBState where
  snapshots : List Snapshot
  addresses : List AddrRow
  deriving DecidableEq

/-- SQLite `IS`: null-safe equality with numeric comparison across the
INTEGER and REAL storage classes (texts never equal numbers). -/
def sqliteEq : Value → Value → Bool
  | .vnull, .vnull => true
  | .vint a, .vint b => a == b
  | .vint a, .vreal q => (a : ℚ) == q
  | .vreal q, .vint a => q == (a : ℚ)
  | .vreal p, .vreal q => p == q
  | .vtext s, .vtext t => s == t
  | _, _ => false

/-- The match condition built in `import_geojson` of src/db.py: every compare
column of the staged row `IS` the stored value — all fourteen compare
columns AND the untracked `extra` column (the source builds the clause from
`col_names[1:]`, which includes `extra`). -/
def matchCondition (r : AddrRow) (s : StagedRow) : Bool :=
  COMPARE_COLUMNS.all (fun c => sqliteEq (c.2 r.fields) (c.2 s.fields))
    && sqliteEq r.extra s.extra

/-- `SELECT MAX(id) FROM snapshots`, with 0 for an empty table (the source
distinguishes the empty case by NULL; snapshot ids start at 1). -/
def maxIdL (l : List Snapshot) : Nat :=
  l.foldr (fun s m => max s.id m) 0

/-- Maximum snapshot id of the store. -/
def maxSnapId (st : DBState) : Nat :=
  maxIdL st.snapshots

/-- A freshly inserted row-version: `min_snapshot_id = max_snapshot_id =`
the current snapshot id. -/
def freshRow (currId : Nat) (s : StagedRow) : AddrRow :=
  { min_snapshot_id := currId
    max_snapshot_id := currId
    address_point_id := s.address_point_id
    fields := s.fields
    extra := s.extra }

/-- The WHERE clause of the validity-extension UPDATE: the row is active at
the previous snapshot (`max_snapshot_id = prev`) and some staged row with
the same entity key matches on every compare column. -/
def extendsMatch (staged : List StagedRow) (prev : Nat) (r : AddrRow) : Bool :=
  r.max_snapshot_id == prev
    && staged.any (fun s => s.address_point_id == r.address_point_id && matchCondition r s)

/-- The validity-extension UPDATE of `import_geojson` applied to the
addresses table: rows satisfying the match get `max_snapshot_id = currId`. -/
def extendAddrs (staged : List StagedRow) (prev currId : Nat)
    (addrs : List AddrRow) : List AddrRow :=
  addrs.map (fun r =>
    if extendsMatch staged prev r then { r with max_snapshot_id := currId } else r)

/-- The staged rows the new-or-modified INSERT of `import_geojson` selects:
those whose entity key is not carried by any row already at `currId`. -/
def rowsToInsert (staged : List StagedRow) (currId : Nat)
    (addrs : List AddrRow) : List StagedRow :=
  staged.filter (fun s =>
    !(addrs.any (fun r =>
      r.max_snapshot_id == currId && r.address_point_id == s.address_point_id)))

/-- `import_geojson` from src/db.py, over already-staged rows: short-circuit
when the filename was already ingested; otherwise create the snapshot
record, and either bulk-insert (first import) or extend the validity of
matching active rows and insert the rest as new versions.  The row count
recorded against the snapshot is the number of staged rows. -/
def importGeojson (staged : List StagedRow) (filename : String) (st : DBState) :
    Nat × DBState :=
  match st.snapshots.find? (fun s => s.filename == filename) with
  | some s => (s.id, st)
  | none =>
    let currId := maxSnapId st + 1
    let snaps := st.snapshots ++ [{ id := currId, filename := filename,
                                    row_count := staged.length }]
    if st.snapshots.isEmpty then
      (currId, { snapshots := snaps,
                 addresses := st.addresses ++ staged.map (freshRow currId) })
    else
      let updated := extendAddrs staged (maxSnapId st) currId st.addresses
      let toInsert := rowsToInsert staged currId updated
      (currId, { snapshots := snaps, addresses := updated ++ toInsert.map (freshRow currId) })

/-- A decoded JSON property value as Python holds it after `json.loads`
(JSON integers and floats decode to distinct Python types). -/
inductive PropVal
  | pnull
  | pint (n : Int)
  | pfloat (q : ℚ)
  | pstr (s : String)
  deriving DecidableEq

/-- One line of the input file after the lenient comma-stripping and JSON
decode of `import_geojson`: either it is skipped outright (no
`"type": "Feature"` marker, or `json.loads` fails), or it decodes to a
feature with a property bag and a coordinate list (the first ring of a
multi-part geometry already unwrapped, as the source does). -/
inductive RawLine
  | malformed
  | feature (props : List (String × PropVal)) (coords : List PropVal)
  deriving DecidableEq

/-- Python `props.get(k)`: the stored value, or None when absent. -/
def lookupProp (props : List (String × PropVal)) (k : String) : PropVal :=
  match props.find? (fun p => p.1 == k) with
  | some p => p.2
  | none => .pnull

/-- Digit-string to number, failing on any non-digit or on the empty string. -/
def decDigits? (cs : List Char) : Option Nat :=
  if cs.isEmpty then none
  else cs.foldlM (fun acc c =>
    if c.isDigit then some (acc * 10 + (c.toNat - 48)) else none) 0

/-- Models the Python builtin `float` on plain decimal literals such as
`"123"` or `"-4.5"`; any other form fails (raises `ValueError` in the
source, which the callers turn into None).  The value is assembled as one
exact fraction. -/
def parseDecimal? (s : String) : Option ℚ :=
  let neg := s.startsWith "-"
  let body := if neg then s.drop 1 else s
  let nd? : Option (Nat × Nat) :=
    match body.splitOn "." with
    | [w] => (decDigits? w.toList).map (fun v => (v, 1))
    | [w, f] =>
      (decDigits? w.toList).bind (fun wn =>
        (decDigits? f.toList).map (fun fn =>
          (wn * 10 ^ f.length + fn, 10 ^ f.length)))
    | _ => none
  nd?.map (fun nd => if neg then mkRat (-(nd.1 : Int)) nd.2 else mkRat nd.1 nd.2)

/-- `_parse_int` from src/db.py: None, the empty string and the `"None"`
sentinel yield None; otherwise `int(float(val))`, truncating toward zero;
unparsable values yield None. -/
def parse_int : PropVal → Option Int
  | .pnull => none
  | .pint n => some n
  | .pfloat q => some (q.num.tdiv (q.den : Int))
  | .pstr s =>
    if s = "" ∨ s = "None" then none
    else (parseDecimal? s).map (fun q => q.num.tdiv (q.den : Int))

/-- `_parse_float` from src/db.py. -/
def parse_float : PropVal → Option ℚ
  | .pnull => none
  | .pint n => some (n : ℚ)
  | .pfloat q => some q
  | .pstr s => if s = "" ∨ s = "None" then none else parseDecimal? s

/-- `_clean_str` from src/db.py: None, `"None"` and the empty string
normalize to unset; any other value becomes its `str` form. -/
def clean_str : PropVal → Value
  | .pnull => .vnull
  | .pint n => .vtext (toString n)
  | .pfloat q => .vtext (ratStr q)
  | .pstr s => if s = "None" ∨ s = "" then .vnull else .vtext s

/-- Python `round(x, 5)` on the model rationals: the nearest multiple of
`10 ^ (-5)` (half rounds up; the tie-breaking of binary floats is immaterial
to the claims), computed as `⌊100000 q + 1/2⌋ / 100000` by floor division. -/
def roundTo5 (q : ℚ) : ℚ :=
  mkRat ((2 * q.num * 100000 + q.den).fdiv (2 * q.den)) 100000

/-- `TRACKED_COLUMNS` from src/db.py. -/
def TRACKED_COLUMNS : List String :=
  ["ADDRESS_POINT_ID", "ADDRESS_FULL", "ADDRESS_NUMBER", "LO_NUM", "LO_NUM_SUF",
   "HI_NUM", "HI_NUM_SUF", "LINEAR_NAME_FULL", "LINEAR_NAME", "LINEAR_NAME_TYPE",
   "LINEAR_NAME_DIR", "MUNICIPALITY_NAME", "WARD_NAME"]

/-- Insertion into a sorted string list, for Python `sorted`. -/
def insertSorted (k : String) : List String → List String
  | [] => [k]
  | x :: xs => if k ≤ x then k :: x :: xs else x :: insertSorted k xs

/-- Python `sorted` on strings. -/
def sortKeys (l : List String) : List String :=
  l.foldr insertSorted []

/-- Rendering of one property value inside the overflow JSON text (string
escaping is not modelled; the rendering is injective on the values the
claims touch). -/
def propValRepr : PropVal → String
  | .pnull => "null"
  | .pint n => toString n
  | .pfloat q => ratStr q
  | .pstr s => "\"" ++ s ++ "\""

/-- The overflow bag of `import_geojson`: properties outside the tracked list
and `_id`, null-filtered, sorted by key, serialized (`json.dumps` modelled
by a fixed injective rendering); None when empty. -/
def buildExtra (props : List (String × PropVal)) : Value :=
  let keys := ((props.map Prod.fst).filter (fun k =>
    !(TRACKED_COLUMNS.contains k) && !(k == "_id"))).eraseDups
  let pairs := (sortKeys keys).filterMap (fun k =>
    match lookupProp props k with
    | .pnull => none
    | v => some (k, v))
  if pairs.isEmpty then .vnull
  else .vtext ("\x7b" ++
    String.intercalate ", " (pairs.map (fun p =>
      "\"" ++ p.1 ++ "\": " ++ propValRepr p.2)) ++ "\x7d")

/-- The per-line body of the staging loop in `import_geojson`: a malformed
line is skipped; a feature yields a staged row unless its entity key is
missing or non-numeric, in which case the record is dropped.  Coordinates
come from the (possibly unwrapped) coordinate pair, rounded to five decimal
places; a missing or short coordinate list yields unset coordinates. -/
def parseLine : RawLine → Option StagedRow
  | .malformed => none
  | .feature props coords =>
    let lonRaw := (coords.get? 0).bind parse_float
    let latRaw := (coords.get? 1).bind parse_float
    let lon := match lonRaw with
      | some q => Value.vreal (roundTo5 q)
      | none => Value.vnull
    let lat := match latRaw with
      | some q => Value.vreal (roundTo5 q)
      | none => Value.vnull
    match parse_int (lookupProp props "ADDRESS_POINT_ID") with
    | none => none
    | some key => some
      { address_point_id := key
        fields :=
          { address_full := clean_str (lookupProp props "ADDRESS_FULL")
            address_number := clean_str (lookupProp props "ADDRESS_NUMBER")
            lo_num := match parse_int (lookupProp props "LO_NUM") with
              | some n => .vint n | none => .vnull
            lo_num_suf := clean_str (lookupProp props "LO_NUM_SUF")
            hi_num := match parse_int (lookupProp props "HI_NUM") with
              | some n => .vint n | none => .vnull
            hi_num_suf := clean_str (lookupProp props "HI_NUM_SUF")
            linear_name_full := clean_str (lookupProp props "LINEAR_NAME_FULL")
            linear_name := clean_str (lookupProp props "LINEAR_NAME")
            linear_name_type := clean_str (lookupProp props "LINEAR_NAME_TYPE")
            linear_name_dir := clean_str (lookupProp props "LINEAR_NAME_DIR")
            municipality_name := clean_str (lookupProp props "MUNICIPALITY_NAME")
            ward_name := clean_str (lookupProp props "WARD_NAME")
            longitude := lon
            latitude := lat }
        extra := buildExtra props }

/-- The staging phase of `import_geojson`: every line, skips dropped. -/
def stageRows (lines : List RawLine) : List StagedRow :=
  lines.filterMap parseLine

/-- `import_geojson` from the raw input lines. -/
def importFile (lines : List RawLine) (filename : String) (st : DBState) :
    Nat × DBState :=
  importGeojson (stageRows lines) filename st

/-- The statements `import_geojson` issues against the store inside its
single connection, in source order (the staging table is session-local and
not part of the store; the final `conn.commit()` is the only commit). -/
inductive SqlOp
  | insertSnapshot (id : Nat) (filename : String)
  | bulkInsert (staged : List StagedRow) (currId : Nat)
  | extendValidity (staged : List StagedRow) (prev currId : Nat)
  | insertNew (staged : List StagedRow) (currId : Nat)
  | setRowCount (n currId : Nat)
  | commit

/-- Effect of one statement on the working (uncommitted) store. -/
def applyOp : SqlOp → DBState → DBState
  | .insertSnapshot id fn, st =>
    { st with snapshots := st.snapshots ++ [{ id := id, filename := fn, row_count := 0 }] }
  | .bulkInsert staged currId, st =>
    { st with addresses := st.addresses ++ staged.map (freshRow currId) }
  | .extendValidity staged prev currId, st =>
    { st with addresses := extendAddrs staged prev currId st.addresses }
  | .insertNew staged currId, st =>
    { st with addresses := st.addresses ++
        (rowsToInsert staged currId st.addresses).map (freshRow currId) }
  | .setRowCount n currId, st =>
    { st with snapshots := st.snapshots.map (fun s =>
        if s.id == currId then { s with row_count := n } else s) }
  | .commit, st => st

/-- Transaction semantics: statements mutate only the working copy; `commit`
publishes the working copy as the committed store that readers observe.
An abort at any point discards the working copy. -/
def runTx : List SqlOp → DBState × DBState → DBState × DBState
  | [], s => s
  | .commit :: ops, (_, working) => runTx ops (working, working)
  | op :: ops, (committed, working) => runTx ops (committed, applyOp op working)

/-- The statement list `import_geojson` issues for one ingest: empty on the
already-imported short-circuit; otherwise snapshot insert, then bulk insert
(first import) or extension plus insertion (delta), then the row-count
update, then the single final commit. -/
def importOps (staged : List StagedRow) (filename : String) (st : DBState) :
    List SqlOp :=
  match st.snapshots.find? (fun s => s.filename == filename) with
  | some _ => []
  | none =>
    let currId := maxSnapId st + 1
    if st.snapshots.isEmpty then
      [.insertSnapshot currId filename, .bulkInsert staged currId,
       .setRowCount staged.length currId, .commit]
    else
      [.insertSnapshot currId filename, .extendValidity staged (maxSnapId st) currId,
       .insertNew staged currId, .setRowCount staged.length currId, .commit]

/-- A concrete field tuple used by the concrete witnesses below. -/
def sampleF : Fields :=
  { address_full := .vtext "1 Yonge St", address_number := .vtext "1",
    lo_num := .vint 1, lo_num_suf := .vnull, hi_num := .vint 0, hi_num_suf := .vnull,
    linear_name_full := .vtext "Yonge St", linear_name := .vtext "Yonge",
    linear_name_type := .vtext "St", linear_name_dir := .vnull,
    municipality_name := .vtext "Toronto", ward_name := .vtext "Ward 10",
    longitude := .vreal (-79), latitude := .vreal 43 }

/-- The sample tuple with a changed ward. -/
def sampleFWard : Fields := { sampleF with ward_name := .vtext "Ward 11" }

/-- The sample tuple with a moved latitude (by a whole degree) and a changed
ward. -/
def sampleFLat : Fields :=
  { sampleF with latitude := .vreal 44, ward_name := .vtext "Ward 11" }

/-- The sample tuple with a projected (out-of-bounds) latitude. -/
def sampleFProj : Fields :=
  { sampleF with latitude := .vreal 7000000, ward_name := .vtext "Ward 11" }

/-- The sample tuple with `hi_num` unset instead of zero and a changed ward. -/
def sampleFZeroN : Fields :=
  { sampleF with hi_num := .vnull, ward_name := .vtext "Ward 11" }

/-- Old-side sample row-version, active in snapshot 1 only. -/
def sampleO : AddrRow :=
  { min_snapshot_id := 1, max_snapshot_id := 1, address_point_id := 100,
    fields := sampleF, extra := .vnull }

/-- New-side sample row-version with only a ward change. -/
def sampleNWard : AddrRow :=
  { min_snapshot_id := 2, max_snapshot_id := 2, address_point_id := 100,
    fields := sampleFWard, extra := .vnull }

/-- New-side sample row-version with a latitude change. -/
def sampleNLat : AddrRow :=
  { min_snapshot_id := 2, max_snapshot_id := 2, address_point_id := 100,
    fields := sampleFLat, extra := .vnull }

/-- New-side sample row-version with a projected latitude. -/
def sampleNProj : AddrRow :=
  { min_snapshot_id := 2, max_snapshot_id := 2, address_point_id := 100,
    fields := sampleFProj, extra := .vnull }

/-- New-side sample row-version with `hi_num` unset and a ward change. -/
def sampleNZero : AddrRow :=
  { min_snapshot_id := 2, max_snapshot_id := 2, address_point_id := 100,
    fields := sampleFZeroN, extra := .vnull }

/-- A stored row-version with overflow text `x`, active in snapshot 1. -/
def cexRow : AddrRow :=
  { min_snapshot_id := 1, max_snapshot_id := 1, address_point_id := 100,
    fields := sampleF, extra := .vtext "x" }

/-- A staged row with the same tracked fields as `cexRow` but overflow `y`. -/
def cexStaged : StagedRow :=
  { address_point_id := 100, fields := sampleF, extra := .vtext "y" }

/-- A staged row wholly identical to `cexRow`. -/
def cexStagedSame : StagedRow :=
  { address_point_id := 100, fields := sampleF, extra := .vtext "x" }

/-- A one-snapshot store holding only `cexRow`. -/
def st1 : DBState :=
  { snapshots := [{ id := 1, filename := "a", row_count := 1 }], addresses := [cexRow] }

/-- The empty store. -/
def emptySt : DBState := { snapshots := [], addresses := [] }

/-- A well-formed raw input line. -/
def rawGood : RawLine :=
  .feature [("ADDRESS_POINT_ID", .pint 100), ("ADDRESS_FULL", .pstr "1 Yonge St")]
    [.pfloat (-79), .pfloat 43]

/-- A raw input line whose entity key is absent (a data-quality skip). -/
def rawBadKey : RawLine :=
  .feature [("ADDRESS_FULL", .pstr "somewhere")] []

/-- The single change record the sample ward change produces. -/
def sampleWardChange : Change :=
  { field := "ward_name", old := .vtext "Ward 10", new := .vtext "Ward 11" }

/-- The modified entry `compute_diff` produces for the sample ward change. -/
def sampleWardEntry : ModEntry :=
  { address_point_id := 100, address_full := .vtext "1 Yonge St",
    municipality_name := .vtext "Toronto", latitude := .vreal 43,
    longitude := .vreal (-79), changes := [sampleWardChange] }

/-- Entity keys of the added rows of a diff. -/
def addedKeys (db : List AddrRow) (oldId newId : Nat) : List Int :=
  (addedRows db oldId newId).map (fun r => r.address_point_id)

/-- Entity keys of the removed rows of a diff. -/
def removedKeys (db : List AddrRow) (oldId newId : Nat) : List Int :=
  (removedRows db oldId newId).map (fun r => r.address_point_id)

/-- Entity keys of the modified entries of a diff. -/
def modifiedKeys (db : List AddrRow) (oldId newId : Nat) : List Int :=
  (computeDiff db oldId newId).modified.map (fun e => e.address_point_id)

/-- An entity key is active in snapshot `s` when some row-version for it is. -/
def activeKey (db : List AddrRow) (s : Nat) (k : Int) : Prop :=
  ∃ r ∈ db, r.address_point_id = k ∧ activeIn s r = true

/-- The remaining unchanged entities of a diff: keys active at both ends that
the modified output does not list. -/
def unchangedKey (db : List AddrRow) (oldId newId : Nat) (k : Int) : Prop :=
  activeKey db oldId k ∧ activeKey db newId k ∧ k ∉ modifiedKeys db oldId newId

/-- Range disjointness of two row-versions of the same entity key. -/
def disjKey (a b : AddrRow) : Prop :=
  a.address_point_id = b.address_point_id →
    a.max_snapshot_id < b.min_snapshot_id ∨ b.max_snapshot_id < a.min_snapshot_id

/-- The store invariant: every row-version has a well-formed validity range
bounded by the snapshot table (ids start at 1), and validity ranges of
row-versions sharing an entity key never overlap. -/
def StoreInv (st : DBState) : Prop :=
  (∀ r ∈ st.addresses,
    1 ≤ r.min_snapshot_id ∧ r.min_snapshot_id ≤ r.max_snapshot_id ∧
      r.max_snapshot_id ≤ maxSnapId st) ∧
  st.addresses.Pairwise disjKey

instance (a b : AddrRow) : Decidable (disjKey a b) := by
  unfold disjKey
  infer_instance

instance (st : DBState) : Decidable (StoreInv st) := by
  unfold StoreInv
  infer_instance

/-! Helper lemmas about the diff engine. -/

lemma mem_changesFor {o n : Fields} {ch : Change} :
    ch ∈ changesFor o n ↔ ∃ c ∈ COMPARE_COLUMNS,
      ¬(c.1 = "latitude" ∨ c.1 = "longitude") ∧
      valuesDiffer (c.2 o) (c.2 n) = true ∧ ch = ⟨c.1, c.2 o, c.2 n⟩ := by
  unfold changesFor
  rw [List.mem_filterMap]
  constructor
  · rintro ⟨c, hc, hf⟩
    by_cases h1 : c.1 = "latitude" ∨ c.1 = "longitude"
    · simp [h1] at hf
    · by_cases h2 : valuesDiffer (c.2 o) (c.2 n) = true
      · refine ⟨c, hc, h1, h2, ?_⟩
        simp only [h1, if_false, h2, if_true, Option.some.injEq] at hf
        exact hf.symm
      · simp [h1, h2] at hf
  · rintro ⟨c, hc, h1, h2, rfl⟩
    exact ⟨c, hc, by simp [h1, h2]⟩

/-- The skip condition at the head of the modified loop of `compute_diff`. -/
lemma modEntry_skip {o n : AddrRow}
    (h : (isProjected o.fields.latitude || isProjected o.fields.longitude
      || isProjected n.fields.latitude || isProjected n.fields.longitude
      || valuesDiffer o.fields.latitude n.fields.latitude
      || valuesDiffer o.fields.longitude n.fields.longitude) = true) :
    modEntry o n = none := by
  unfold modEntry
  simp [h]

lemma modEntry_some {o n : AddrRow} {e : ModEntry} (h : modEntry o n = some e) :
    e.changes = changesFor o.fields n.fields ∧
    e.address_point_id = o.address_point_id := by
  unfold modEntry at h
  by_cases hc : (isProjected o.fields.latitude || isProjected o.fields.longitude
      || isProjected n.fields.latitude || isProjected n.fields.longitude
      || valuesDiffer o.fields.latitude n.fields.latitude
      || valuesDiffer o.fields.longitude n.fields.longitude) = true
  · simp [hc] at h
  · rw [Bool.not_eq_true] at hc
    by_cases he : (changesFor o.fields n.fields).isEmpty
    · simp [hc, he] at h
    · simp only [hc, Bool.false_eq_true, if_false, he, if_true] at h
      cases h
      exact ⟨rfl, rfl⟩

/-- Name determines accessor inside `COMPARE_COLUMNS`. -/
lemma compare_columns_key_determined :
    ∀ c ∈ COMPARE_COLUMNS, ∀ c' ∈ COMPARE_COLUMNS, c.1 = c'.1 → c.2 = c'.2 := by
  intro c hc c' hc'
  simp only [COMPARE_COLUMNS, List.mem_cons, List.not_mem_nil, or_false] at hc hc'
  rcases hc with rfl | rfl | rfl | rfl | rfl | rfl | rfl | rfl | rfl | rfl | rfl | rfl | rfl | rfl <;>
    rcases hc' with rfl | rfl | rfl | rfl | rfl | rfl | rfl | rfl | rfl | rfl | rfl | rfl | rfl | rfl <;>
    simp

/-- Both-unset and zero-versus-unset pairs compare equal in `_values_differ`. -/
lemma valuesDiffer_null_cases {a b : Value}
    (h : (a.isZero = true ∧ b = .vnull) ∨ (a = .vnull ∧ b.isZero = true) ∨
      (a = .vnull ∧ b = .vnull)) :
    valuesDiffer a b = false := by
  rcases h with ⟨hz, rfl⟩ | ⟨rfl, hz⟩ | ⟨rfl, rfl⟩
  · by_cases ha : a = .vnull
    · simp [valuesDiffer, ha]
    · simp [valuesDiffer, ha, hz]
  · by_cases hb : b = .vnull
    · simp [valuesDiffer, hb]
    · simp [valuesDiffer, hb, hz]
  · simp [valuesDiffer]

/-- C9: the projection guard of the diff engine. If any of the four coordinate
values of a modified-join pair has magnitude above 180, the entity is omitted
from the modified output entirely, so no coordinate change (indeed, no change
at all) is reported for it; moreover no changes list of any modified entry
ever names a coordinate field. -/
theorem c9_projection_guard :
    (∀ o n : AddrRow,
      (isProjected o.fields.latitude || isProjected o.fields.longitude
        || isProjected n.fields.latitude || isProjected n.fields.longitude) = true →
      modEntry o n = none) ∧
    (∀ db : List AddrRow, ∀ oldId newId : Nat,
      ∀ e ∈ (computeDiff db oldId newId).modified,
      ∀ ch ∈ e.changes, ch.field ≠ "latitude" ∧ ch.field ≠ "longitude") := by
  constructor
  · intro o n h
    apply modEntry_skip
    simp only [Bool.or_eq_true] at h ⊢
    tauto
  · intro db oldId newId e he ch hch
    simp only [computeDiff, List.mem_filterMap] at he
    obtain ⟨p, -, hme⟩ := he
    rw [(modEntry_some hme).1] at hch
    obtain ⟨c, -, h1, -, rfl⟩ := mem_changesFor.mp hch
    push_neg at h1
    exact h1

/-- C9 witness: a projected latitude suppresses the sample entity, and the
sample ward-change record names no coordinate field. -/
theorem c9_projection_guard_witness :
    modEntry sampleO sampleNProj = none ∧
    (sampleWardChange.field ≠ "latitude" ∧ sampleWardChange.field ≠ "longitude") :=
  ⟨c9_projection_guard.1 sampleO sampleNProj (by decide),
   c9_projection_guard.2 [sampleO, sampleNWard] 1 2 sampleWardEntry (by decide)
     sampleWardChange (by decide)⟩

/-- C10: if the latitude or longitude values of a modified-join pair differ
under `_values_differ`, the diff engine omits the entity from the modified
output entirely (none of its non-coordinate changes are reported), and
coordinate fields never appear in any changes list. -/
theorem c10_coordinate_diff_suppresses_entity :
    (∀ o n : AddrRow,
      (valuesDiffer o.fields.latitude n.fields.latitude = true ∨
        valuesDiffer o.fields.longitude n.fields.longitude = true) →
      modEntry o n = none) ∧
    (∀ o n : AddrRow, ∀ e : ModEntry, modEntry o n = some e →
      ∀ ch ∈ e.changes, ch.field ≠ "latitude" ∧ ch.field ≠ "longitude") := by
  constructor
  · intro o n h
    apply modEntry_skip
    simp only [Bool.or_eq_true]
    tauto
  · intro o n e hme ch hch
    rw [(modEntry_some hme).1] at hch
    obtain ⟨c, -, h1, -, rfl⟩ := mem_changesFor.mp hch
    push_neg at h1
    exact h1

/-- C10 witness: the sample latitude change (43 to 44) suppresses the entity,
and the sample ward-change record names no coordinate field. -/
theorem c10_coordinate_diff_suppresses_entity_witness :
    modEntry sampleO sampleNLat = none ∧
    (sampleWardChange.field ≠ "latitude" ∧ sampleWardChange.field ≠ "longitude") :=
  ⟨c10_coordinate_diff_suppresses_entity.1 sampleO sampleNLat (by decide),
   c10_coordinate_diff_suppresses_entity.2 sampleO sampleNZero sampleWardEntry
     (by decide) sampleWardChange (by decide)⟩

/-- C7: the value-equivalence rule. A numeric zero on one side and unset on
the other (and likewise both-unset) compare equal under `_values_differ`, and
a tracked field whose old/new pair is of that shape never appears in the
changes list of a modified entity. -/
theorem c7_zero_unset_equivalence :
    (∀ a b : Value,
      (a.isZero = true ∧ b = .vnull) ∨ (a = .vnull ∧ b.isZero = true) ∨
        (a = .vnull ∧ b = .vnull) →
      valuesDiffer a b = false) ∧
    (∀ o n : AddrRow, ∀ e : ModEntry, modEntry o n = some e →
      ∀ (name : String) (getter : Fields → Value), (name, getter) ∈ COMPARE_COLUMNS →
      ((getter o.fields).isZero = true ∧ getter n.fields = .vnull) ∨
        (getter o.fields = .vnull ∧ (getter n.fields).isZero = true) ∨
        (getter o.fields = .vnull ∧ getter n.fields = .vnull) →
      ∀ ch ∈ e.changes, ch.field ≠ name) := by
  refine ⟨fun a b h => valuesDiffer_null_cases h, ?_⟩
  intro o n e hme name getter hmem hzero ch hch hfield
  rw [(modEntry_some hme).1] at hch
  obtain ⟨c, hc, -, hdif, rfl⟩ := mem_changesFor.mp hch
  have hgetter : c.2 = getter :=
    compare_columns_key_determined c hc (name, getter) hmem hfield
  rw [hgetter] at hdif
  rw [valuesDiffer_null_cases hzero] at hdif
  exact Bool.false_ne_true hdif

/-- C7 witness: zero versus unset compares equal, and the sample entity whose
`hi_num` goes from 0 to unset reports no `hi_num` change (its only change is
the ward). -/
theorem c7_zero_unset_equivalence_witness :
    valuesDiffer (.vint 0) .vnull = false ∧ sampleWardChange.field ≠ "hi_num" :=
  ⟨c7_zero_unset_equivalence.1 (.vint 0) .vnull (Or.inl ⟨by decide, rfl⟩),
   c7_zero_unset_equivalence.2 sampleO sampleNZero sampleWardEntry (by decide)
     "hi_num" Fields.hi_num (by simp [COMPARE_COLUMNS])
     (Or.inl ⟨by decide, by decide⟩) sampleWardChange (by decide)⟩

/-- C1 counterexample: entity 100 is active in snapshots 1 and 2 via two
different row-versions and its latitude moved a whole degree (43 to 44, far
beyond any small tolerance), yet the diff emits no change record at all for
it: the modified list is empty, so no `{field, old, new}` record for the
latitude (nor for the simultaneous ward change) is ever emitted, contrary to
the claim that coordinate differences exceeding the tolerance are emitted. -/
theorem c1_counterexample :
    (sampleO, sampleNLat) ∈ modifiedPairs [sampleO, sampleNLat] 1 2 ∧
    valuesDiffer sampleO.fields.latitude sampleNLat.fields.latitude = true ∧
    (computeDiff [sampleO, sampleNLat] 1 2).modified = [] ∧
    (computeDiff [sampleO, sampleNLat] 1 2).added = [] ∧
    (computeDiff [sampleO, sampleNLat] 1 2).removed = [] := by decide

/-- C1 amended: for a modified-join pair that passes the coordinate gate (no
projected coordinate value and coordinates equal under `_values_differ`),
every non-coordinate tracked field whose values differ under the equivalence
rules is emitted as a `{field, old, new}` change record; coordinate fields
are compared by the same string-equality rules with no tolerance, and a
coordinate difference suppresses the entity instead of being emitted. -/
theorem c1_tracked_field_changes_emitted :
    ∀ o n : AddrRow,
      (isProjected o.fields.latitude || isProjected o.fields.longitude
        || isProjected n.fields.latitude || isProjected n.fields.longitude
        || valuesDiffer o.fields.latitude n.fields.latitude
        || valuesDiffer o.fields.longitude n.fields.longitude) = false →
      ∀ (name : String) (getter : Fields → Value), (name, getter) ∈ COMPARE_COLUMNS →
      ¬(name = "latitude" ∨ name = "longitude") →
      valuesDiffer (getter o.fields) (getter n.fields) = true →
      ∃ e, modEntry o n = some e ∧
        (⟨name, getter o.fields, getter n.fields⟩ : Change) ∈ e.changes := by
  intro o n hc name getter hmem hname hdif
  have hch : (⟨name, getter o.fields, getter n.fields⟩ : Change) ∈
      changesFor o.fields n.fields :=
    mem_changesFor.mpr ⟨(name, getter), hmem, hname, hdif, rfl⟩
  have hne : (changesFor o.fields n.fields).isEmpty = false := by
    rcases h : changesFor o.fields n.fields with - | ⟨a, l⟩
    · rw [h] at hch; exact absurd hch (List.not_mem_nil _)
    · rfl
  have hsome : (modEntry o n).isSome := by
    unfold modEntry
    simp [hc, hne]
  obtain ⟨e, he⟩ := Option.isSome_iff_exists.mp hsome
  refine ⟨e, he, ?_⟩
  rw [(modEntry_some he).1]
  exact hch

/-- C1 amended witness: the sample ward change passes the coordinate gate and
its ward record is emitted. -/
theorem c1_tracked_field_changes_emitted_witness :
    ∃ e, modEntry sampleO sampleNWard = some e ∧
      (⟨"ward_name", Fields.ward_name sampleO.fields,
        Fields.ward_name sampleNWard.fields⟩ : Change) ∈ e.changes :=
  c1_tracked_field_changes_emitted sampleO sampleNWard (by decide)
    "ward_name" Fields.ward_name (by simp [COMPARE_COLUMNS]) (by decide) (by decide)

lemma mem_addedKeys {db : List AddrRow} {oldId newId : Nat} {k : Int} :
    k ∈ addedKeys db oldId newId ↔ activeKey db newId k ∧ ¬ activeKey db oldId k := by
  simp only [addedKeys, addedRows, activeKey, List.mem_map, List.mem_filter,
    Bool.and_eq_true, Bool.not_eq_true', List.any_eq_false, Bool.and_eq_true]
  constructor
  · rintro ⟨r, ⟨hrdb, hact, hno⟩, rfl⟩
    refine ⟨⟨r, hrdb, rfl, hact⟩, ?_⟩
    rintro ⟨o, ho, hok, hoact⟩
    exact hno o ho ⟨beq_iff_eq.mpr hok, hoact⟩
  · rintro ⟨⟨r, hrdb, rfl, hact⟩, hno⟩
    refine ⟨r, ⟨hrdb, hact, ?_⟩, rfl⟩
    intro o ho
    rintro ⟨h1, h2⟩
    exact hno ⟨o, ho, beq_iff_eq.mp h1, h2⟩

lemma mem_removedKeys {db : List AddrRow} {oldId newId : Nat} {k : Int} :
    k ∈ removedKeys db oldId newId ↔ activeKey db oldId k ∧ ¬ activeKey db newId k := by
  simp only [removedKeys, removedRows, activeKey, List.mem_map, List.mem_filter,
    Bool.and_eq_true, Bool.not_eq_true', List.any_eq_false, Bool.and_eq_true]
  constructor
  · rintro ⟨r, ⟨hrdb, hact, hno⟩, rfl⟩
    refine ⟨⟨r, hrdb, rfl, hact⟩, ?_⟩
    rintro ⟨o, ho, hok, hoact⟩
    exact hno o ho ⟨beq_iff_eq.mpr hok, hoact⟩
  · rintro ⟨⟨r, hrdb, rfl, hact⟩, hno⟩
    refine ⟨r, ⟨hrdb, hact, ?_⟩, rfl⟩
    intro o ho
    rintro ⟨h1, h2⟩
    exact hno ⟨o, ho, beq_iff_eq.mp h1, h2⟩

lemma mem_modifiedPairs {db : List AddrRow} {oldId newId : Nat} {p : AddrRow × AddrRow} :
    p ∈ modifiedPairs db oldId newId ↔
      p.1 ∈ db ∧ p.2 ∈ db ∧ p.2.address_point_id = p.1.address_point_id ∧
      activeIn oldId p.1 = true ∧ activeIn newId p.2 = true ∧
      ¬ p.1.min_snapshot_id = p.2.min_snapshot_id := by
  obtain ⟨o, n⟩ := p
  simp only [modifiedPairs, List.mem_flatMap, List.mem_map]
  constructor
  · rintro ⟨o', ho', n', hn', heq⟩
    rw [Prod.mk.injEq] at heq
    obtain ⟨rfl, rfl⟩ := heq
    rw [List.mem_filter] at hn'
    obtain ⟨hndb, hcond⟩ := hn'
    simp only [Bool.and_eq_true, beq_iff_eq, Bool.not_eq_true', beq_eq_false_iff_ne,
      ne_eq] at hcond
    obtain ⟨⟨⟨hk, hao⟩, han⟩, hmin⟩ := hcond
    exact ⟨ho', hndb, hk, hao, han, hmin⟩
  · rintro ⟨ho, hn, hk, hao, han, hmin⟩
    refine ⟨o, ho, n, ?_, rfl⟩
    rw [List.mem_filter]
    refine ⟨hn, ?_⟩
    simp only [Bool.and_eq_true, beq_iff_eq, Bool.not_eq_true', beq_eq_false_iff_ne,
      ne_eq]
    exact ⟨⟨⟨hk, hao⟩, han⟩, hmin⟩

lemma modifiedKeys_active {db : List AddrRow} {oldId newId : Nat} {k : Int}
    (h : k ∈ modifiedKeys db oldId newId) :
    activeKey db oldId k ∧ activeKey db newId k := by
  simp only [modifiedKeys, computeDiff, List.mem_map, List.mem_filterMap] at h
  obtain ⟨e, ⟨p, hp, hme⟩, rfl⟩ := h
  rw [mem_modifiedPairs] at hp
  obtain ⟨h1, h2, hkey, hao, han, -⟩ := hp
  have hek : e.address_point_id = p.1.address_point_id := (modEntry_some hme).2
  exact ⟨⟨p.1, h1, hek.symm, hao⟩, ⟨p.2, h2, hkey.trans hek.symm, han⟩⟩

/-- C4: the diff output partitions the keys active in either snapshot. Added
keys are exactly those active in new with no version active in old; removed
keys exactly those active in old with none active in new; modified keys lie
among the keys active at both ends; the four classes (the fourth being the
remaining unchanged keys) are pairwise disjoint and jointly cover exactly
the keys active in either snapshot. -/
theorem c4_partition :
    ∀ (db : List AddrRow) (oldId newId : Nat) (k : Int),
      (k ∈ addedKeys db oldId newId ↔ activeKey db newId k ∧ ¬ activeKey db oldId k) ∧
      (k ∈ removedKeys db oldId newId ↔ activeKey db oldId k ∧ ¬ activeKey db newId k) ∧
      (k ∈ modifiedKeys db oldId newId → activeKey db oldId k ∧ activeKey db newId k) ∧
      ¬(k ∈ addedKeys db oldId newId ∧ k ∈ removedKeys db oldId newId) ∧
      ¬(k ∈ addedKeys db oldId newId ∧ k ∈ modifiedKeys db oldId newId) ∧
      ¬(k ∈ addedKeys db oldId newId ∧ unchangedKey db oldId newId k) ∧
      ¬(k ∈ removedKeys db oldId newId ∧ k ∈ modifiedKeys db oldId newId) ∧
      ¬(k ∈ removedKeys db oldId newId ∧ unchangedKey db oldId newId k) ∧
      ¬(k ∈ modifiedKeys db oldId newId ∧ unchangedKey db oldId newId k) ∧
      ((activeKey db oldId k ∨ activeKey db newId k) ↔
        (k ∈ addedKeys db oldId newId ∨ k ∈ removedKeys db oldId newId ∨
          k ∈ modifiedKeys db oldId newId ∨ unchangedKey db oldId newId k)) := by
  intro db oldId newId k
  have ha := @mem_addedKeys db oldId newId k
  have hr := @mem_removedKeys db oldId newId k
  have hm := @modifiedKeys_active db oldId newId k
  unfold unchangedKey
  refine ⟨ha, hr, hm, ?_, ?_, ?_, ?_, ?_, ?_, ?_⟩ <;> tauto

/-- C4 witness: the partition at the concrete two-row store (key 100 is
modified there). -/
theorem c4_partition_witness :
    (100 ∈ addedKeys [sampleO, sampleNWard] 1 2 ↔
      activeKey [sampleO, sampleNWard] 2 100 ∧ ¬ activeKey [sampleO, sampleNWard] 1 100) ∧
    (100 ∈ removedKeys [sampleO, sampleNWard] 1 2 ↔
      activeKey [sampleO, sampleNWard] 1 100 ∧ ¬ activeKey [sampleO, sampleNWard] 2 100) ∧
    (100 ∈ modifiedKeys [sampleO, sampleNWard] 1 2 →
      activeKey [sampleO, sampleNWard] 1 100 ∧ activeKey [sampleO, sampleNWard] 2 100) ∧
    ¬(100 ∈ addedKeys [sampleO, sampleNWard] 1 2 ∧
      100 ∈ removedKeys [sampleO, sampleNWard] 1 2) ∧
    ¬(100 ∈ addedKeys [sampleO, sampleNWard] 1 2 ∧
      100 ∈ modifiedKeys [sampleO, sampleNWard] 1 2) ∧
    ¬(100 ∈ addedKeys [sampleO, sampleNWard] 1 2 ∧
      unchangedKey [sampleO, sampleNWard] 1 2 100) ∧
    ¬(100 ∈ removedKeys [sampleO, sampleNWard] 1 2 ∧
      100 ∈ modifiedKeys [sampleO, sampleNWard] 1 2) ∧
    ¬(100 ∈ removedKeys [sampleO, sampleNWard] 1 2 ∧
      unchangedKey [sampleO, sampleNWard] 1 2 100) ∧
    ¬(100 ∈ modifiedKeys [sampleO, sampleNWard] 1 2 ∧
      unchangedKey [sampleO, sampleNWard] 1 2 100) ∧
    ((activeKey [sampleO, sampleNWard] 1 100 ∨ activeKey [sampleO, sampleNWard] 2 100) ↔
      (100 ∈ addedKeys [sampleO, sampleNWard] 1 2 ∨
        100 ∈ removedKeys [sampleO, sampleNWard] 1 2 ∨
        100 ∈ modifiedKeys [sampleO, sampleNWard] 1 2 ∨
        unchangedKey [sampleO, sampleNWard] 1 2 100)) :=
  c4_partition [sampleO, sampleNWard] 1 2 100

/-- Ingest short-circuits on an already-recorded filename. -/
lemma importGeojson_found {staged : List StagedRow} {fn : String} {st : DBState}
    {s : Snapshot} (h : st.snapshots.find? (fun x => x.filename == fn) = some s) :
    importGeojson staged fn st = (s.id, st) := by
  unfold importGeojson
  rw [h]

/-- A fresh ingest appends exactly one snapshot record and returns its id. -/
lemma importGeojson_snapshots {staged : List StagedRow} {fn : String} {st : DBState}
    (hnone : st.snapshots.find? (fun x => x.filename == fn) = none) :
    (importGeojson staged fn st).2.snapshots =
      st.snapshots ++ [{ id := maxSnapId st + 1, filename := fn,
                         row_count := staged.length }] ∧
    (importGeojson staged fn st).1 = maxSnapId st + 1 := by
  unfold importGeojson
  rw [hnone]
  by_cases he : st.snapshots.isEmpty <;> simp [he]

/-- C3: ingest is idempotent per source filename. When a snapshot with the
filename exists, ingest returns its id and the store unchanged; hence
ingesting the same file twice leaves the second call a no-op returning the
first id, and exactly one snapshot carries the filename. -/
theorem c3_ingest_idempotent :
    (∀ (staged : List StagedRow) (fn : String) (st : DBState) (s : Snapshot),
      st.snapshots.find? (fun x => x.filename == fn) = some s →
      importGeojson staged fn st = (s.id, st)) ∧
    (∀ (staged : List StagedRow) (fn : String) (st : DBState),
      (∀ s ∈ st.snapshots, s.filename ≠ fn) →
      importGeojson staged fn (importGeojson staged fn st).2 =
        ((importGeojson staged fn st).1, (importGeojson staged fn st).2) ∧
      ((importGeojson staged fn st).2.snapshots.filter
        (fun s => s.filename == fn)).length = 1) := by
  constructor
  · intro staged fn st s h
    unfold importGeojson
    rw [h]
  · intro staged fn st h
    have hnone : st.snapshots.find? (fun x => x.filename == fn) = none :=
      List.find?_eq_none.mpr (fun x hx => by simp [h x hx])
    obtain ⟨hsnap, hid⟩ := @importGeojson_snapshots staged fn st hnone
    have hfind : (importGeojson staged fn st).2.snapshots.find?
        (fun x => x.filename == fn) =
        some { id := maxSnapId st + 1, filename := fn, row_count := staged.length } := by
      rw [hsnap, List.find?_append, hnone]
      simp
    constructor
    · rw [importGeojson_found hfind, hid]
    · rw [hsnap, List.filter_append]
      have h1 : st.snapshots.filter (fun s => s.filename == fn) = [] := by
        rw [List.filter_eq_nil_iff]
        intro s hs
        simp [h s hs]
      rw [h1]
      simp

/-- C3 witness: the short-circuit at the concrete one-snapshot store, and the
double-ingest no-op on a fresh filename there. -/
theorem c3_ingest_idempotent_witness :
    importGeojson [cexStaged] "a" st1 = (1, st1) ∧
    (importGeojson [cexStagedSame] "b" (importGeojson [cexStagedSame] "b" st1).2 =
      ((importGeojson [cexStagedSame] "b" st1).1, (importGeojson [cexStagedSame] "b" st1).2) ∧
    ((importGeojson [cexStagedSame] "b" st1).2.snapshots.filter
      (fun s => s.filename == "b")).length = 1) :=
  ⟨c3_ingest_idempotent.1 [cexStaged] "a" st1
      { id := 1, filename := "a", row_count := 1 } (by decide),
   c3_ingest_idempotent.2 [cexStagedSame] "b" st1 (by decide)⟩

lemma activeIn_iff {s : Nat} {r : AddrRow} :
    activeIn s r = true ↔ r.min_snapshot_id ≤ s ∧ s ≤ r.max_snapshot_id := by
  simp [activeIn]

lemma disj_not_both_active {a b : AddrRow} (h : disjKey a b)
    (hk : a.address_point_id = b.address_point_id) {s : Nat}
    (ha : activeIn s a = true) (hb : activeIn s b = true) : False := by
  rw [activeIn_iff] at ha hb
  rcases h hk with h' | h' <;> omega

/-- Under pairwise range disjointness, at most one row-version per entity key
is active in any snapshot. -/
lemma uniq_active {l : List AddrRow} (hp : l.Pairwise disjKey) {s : Nat} :
    ∀ a ∈ l, ∀ b ∈ l, a.address_point_id = b.address_point_id →
      activeIn s a = true → activeIn s b = true → a = b := by
  induction l with
  | nil => intro a ha; cases ha
  | cons x xs ih =>
    rw [List.pairwise_cons] at hp
    obtain ⟨hx, hxs⟩ := hp
    intro a ha b hb hk haa hab
    rcases List.mem_cons.mp ha with rfl | ha' <;> rcases List.mem_cons.mp hb with rfl | hb'
    · rfl
    · exact absurd (disj_not_both_active (hx b hb') hk haa hab) not_false
    · exact absurd (disj_not_both_active (hx a ha') hk.symm hab haa) not_false
    · exact ih hxs a ha' b hb' hk haa hab

lemma maxIdL_append (l : List Snapshot) (s : Snapshot) :
    maxIdL (l ++ [s]) = max (maxIdL l) s.id := by
  induction l with
  | nil => simp [maxIdL]
  | cons x xs ih =>
    simp only [maxIdL, List.cons_append, List.foldr_cons] at ih ⊢
    rw [ih]
    omega

/-- Addresses after a delta-branch ingest. -/
lemma importGeojson_delta {staged : List StagedRow} {fn : String} {st : DBState}
    (hnone : st.snapshots.find? (fun x => x.filename == fn) = none)
    (hne : st.snapshots.isEmpty = false) :
    (importGeojson staged fn st).2.addresses =
      extendAddrs staged (maxSnapId st) (maxSnapId st + 1) st.addresses ++
        (rowsToInsert staged (maxSnapId st + 1)
          (extendAddrs staged (maxSnapId st) (maxSnapId st + 1) st.addresses)).map
          (freshRow (maxSnapId st + 1)) := by
  unfold importGeojson
  rw [hnone]
  simp [hne]

/-- Addresses after a first-ever ingest. -/
lemma importGeojson_first {staged : List StagedRow} {fn : String} {st : DBState}
    (hnone : st.snapshots.find? (fun x => x.filename == fn) = none)
    (he : st.snapshots.isEmpty = true) :
    (importGeojson staged fn st).2.addresses =
      st.addresses ++ staged.map (freshRow (maxSnapId st + 1)) := by
  unfold importGeojson
  rw [hnone]
  simp [he]

lemma extendsMatch_max {staged : List StagedRow} {prev : Nat} {r : AddrRow}
    (h : extendsMatch staged prev r = true) : r.max_snapshot_id = prev := by
  unfold extendsMatch at h
  rw [Bool.and_eq_true] at h
  exact beq_iff_eq.mp h.1

lemma mem_extendAddrs {staged : List StagedRow} {prev currId : Nat}
    {addrs : List AddrRow} {rw : AddrRow}
    (h : rw ∈ extendAddrs staged prev currId addrs) :
    ∃ r₀ ∈ addrs,
      (extendsMatch staged prev r₀ = true ∧ r₀.max_snapshot_id = prev ∧
        rw = { r₀ with max_snapshot_id := currId }) ∨
      (extendsMatch staged prev r₀ = false ∧ rw = r₀) := by
  unfold extendAddrs at h
  rw [List.mem_map] at h
  obtain ⟨r₀, hr₀, heq⟩ := h
  refine ⟨r₀, hr₀, ?_⟩
  rcases hext : extendsMatch staged prev r₀ with - | -
  · rw [hext] at heq
    simp only [Bool.false_eq_true, if_false] at heq
    exact Or.inr ⟨rfl, heq.symm⟩
  · rw [hext] at heq
    simp only [if_true] at heq
    exact Or.inl ⟨rfl, extendsMatch_max hext, heq.symm⟩

/-- C2 counterexample: the staged row re-submits entity 100 with a tracked
tuple identical to the version active at snapshot 1 (the `fields` components
coincide), differing only in the untracked overflow text.  The claim demands
that the active version be extended with no new row inserted; the ingest
instead leaves the old version at `max_snapshot_id = 1` and inserts a fresh
row-version `[2, 2]`, because the match condition built from `col_names[1:]`
also compares the `extra` column. -/
theorem c2_counterexample :
    cexStaged.fields = cexRow.fields ∧
    cexRow ∈ st1.addresses ∧
    activeIn (maxSnapId st1) cexRow = true ∧
    (importGeojson [cexStaged] "b" st1).2.addresses = [cexRow, freshRow 2 cexStaged] ∧
    ({ cexRow with max_snapshot_id := 2 } ∉
      (importGeojson [cexStaged] "b" st1).2.addresses) := by decide

/-- C2 amended: for every staged row whose entity key has a row-version
active as of the previous snapshot and whose tracked-field tuple AND
overflow bag are identical to that active version (null compared equal to
null), that version's `max_snapshot_id` is extended to the new snapshot id,
no freshly inserted row carries that key, and the active-as-of-new query
resolves the key to exactly that extended version. -/
theorem c2_identical_resubmission_extends :
    ∀ (staged : List StagedRow) (fn : String) (st : DBState) (r : AddrRow)
      (s : StagedRow),
      StoreInv st →
      st.snapshots.isEmpty = false →
      (∀ x ∈ st.snapshots, x.filename ≠ fn) →
      r ∈ st.addresses →
      activeIn (maxSnapId st) r = true →
      s ∈ staged →
      s.address_point_id = r.address_point_id →
      matchCondition r s = true →
      ({ r with max_snapshot_id := maxSnapId st + 1 } ∈
        (importGeojson staged fn st).2.addresses) ∧
      (∀ rw ∈ (importGeojson staged fn st).2.addresses,
        rw.min_snapshot_id = maxSnapId st + 1 →
        rw.address_point_id ≠ r.address_point_id) ∧
      (∀ rw ∈ (importGeojson staged fn st).2.addresses,
        rw.address_point_id = r.address_point_id →
        activeIn (maxSnapId st + 1) rw = true →
        rw = { r with max_snapshot_id := maxSnapId st + 1 }) := by
  intro staged fn st r s hinv hne hfn hr hact hs hkey hmatch
  have hnone : st.snapshots.find? (fun x => x.filename == fn) = none :=
    List.find?_eq_none.mpr (fun x hx => by simp [hfn x hx])
  have hbounds := hinv.1 r hr
  have hrmax : r.max_snapshot_id = maxSnapId st := by
    rw [activeIn_iff] at hact
    omega
  have hext : extendsMatch staged (maxSnapId st) r = true := by
    unfold extendsMatch
    rw [Bool.and_eq_true, List.any_eq_true]
    refine ⟨by rw [hrmax]; exact beq_iff_eq.mpr rfl, s, hs, ?_⟩
    rw [Bool.and_eq_true]
    exact ⟨beq_iff_eq.mpr hkey, hmatch⟩
  have hmem : { r with max_snapshot_id := maxSnapId st + 1 } ∈
      extendAddrs staged (maxSnapId st) (maxSnapId st + 1) st.addresses := by
    unfold extendAddrs
    rw [List.mem_map]
    exact ⟨r, hr, by rw [hext]; simp⟩
  rw [importGeojson_delta hnone hne]
  have hfreshkey : ∀ s' ∈ rowsToInsert staged (maxSnapId st + 1)
      (extendAddrs staged (maxSnapId st) (maxSnapId st + 1) st.addresses),
      s'.address_point_id ≠ r.address_point_id := by
    intro s' hs' heq
    unfold rowsToInsert at hs'
    rw [List.mem_filter, Bool.not_eq_true', List.any_eq_false] at hs'
    refine hs'.2 { r with max_snapshot_id := maxSnapId st + 1 } hmem ?_
    rw [Bool.and_eq_true]
    exact ⟨beq_iff_eq.mpr rfl, beq_iff_eq.mpr heq.symm⟩
  refine ⟨List.mem_append_left _ hmem, ?_, ?_⟩
  · intro rw hrw hmin
    rcases List.mem_append.mp hrw with hl | hrr
    · obtain ⟨r₀, hr₀, hcase⟩ := mem_extendAddrs hl
      have hb₀ := hinv.1 r₀ hr₀
      rcases hcase with ⟨-, -, rfl⟩ | ⟨-, rfl⟩
      · have hmin' : r₀.min_snapshot_id = maxSnapId st + 1 := hmin
        omega
      · omega
    · rw [List.mem_map] at hrr
      obtain ⟨s', hs', rfl⟩ := hrr
      exact hfreshkey s' hs'
  · intro rw hrw hkey' hact'
    rcases List.mem_append.mp hrw with hl | hrr
    · obtain ⟨r₀, hr₀, hcase⟩ := mem_extendAddrs hl
      have hb₀ := hinv.1 r₀ hr₀
      rcases hcase with ⟨hx₀, hmax₀, rfl⟩ | ⟨-, rfl⟩
      · have hr₀r : r₀ = r := by
          refine uniq_active hinv.2 r₀ hr₀ r hr ?_ ?_ hact
          · exact hkey'
          · rw [activeIn_iff]
            omega
        rw [hr₀r]
      · rw [activeIn_iff] at hact'
        omega
    · rw [List.mem_map] at hrr
      obtain ⟨s', hs', rfl⟩ := hrr
      exact absurd hkey' (hfreshkey s' hs')

/-- C2 amended witness: re-submitting entity 100 wholly identically (tracked
fields and overflow) extends the version created at snapshot 1. -/
theorem c2_identical_resubmission_extends_witness :
    { cexRow with max_snapshot_id := 2 } ∈
      (importGeojson [cexStagedSame] "b" st1).2.addresses :=
  (c2_identical_resubmission_extends [cexStagedSame] "b" st1 cexRow cexStagedSame
    (by decide) (by decide) (by decide) (by decide) (by decide) (by decide)
    (by decide) (by decide)).1

lemma maxSnapId_after {staged : List StagedRow} {fn : String} {st : DBState}
    (hnone : st.snapshots.find? (fun x => x.filename == fn) = none) :
    maxSnapId (importGeojson staged fn st).2 = maxSnapId st + 1 := by
  have h := (@importGeojson_snapshots staged fn st hnone).1
  unfold maxSnapId
  rw [h, maxIdL_append]
  exact Nat.max_eq_right (Nat.le_succ _)

lemma nodup_keys_pairwise {staged : List StagedRow}
    (h : (staged.map (fun s => s.address_point_id)).Nodup) :
    staged.Pairwise (fun a b => ¬ a.address_point_id = b.address_point_id) := by
  unfold List.Nodup at h
  rw [List.pairwise_map] at h
  exact h

/-- Extension preserves range disjointness of two same-store rows. -/
lemma ext_disj {staged : List StagedRow} {prev currId : Nat} {a b : AddrRow}
    (ha1 : a.min_snapshot_id ≤ a.max_snapshot_id) (ha2 : a.max_snapshot_id ≤ prev)
    (hb1 : b.min_snapshot_id ≤ b.max_snapshot_id) (hb2 : b.max_snapshot_id ≤ prev)
    (hab : disjKey a b) :
    disjKey (if extendsMatch staged prev a then { a with max_snapshot_id := currId } else a)
      (if extendsMatch staged prev b then { b with max_snapshot_id := currId } else b) := by
  rcases hea : extendsMatch staged prev a with - | - <;>
    rcases heb : extendsMatch staged prev b with - | - <;>
    simp only [hea, heb, Bool.false_eq_true, if_false, if_true]
  · exact hab
  · have hbm := extendsMatch_max heb
    intro hk
    have hk' : a.address_point_id = b.address_point_id := hk
    show a.max_snapshot_id < b.min_snapshot_id ∨ currId < a.min_snapshot_id
    rcases hab hk' with h' | h' <;> omega
  · have ham := extendsMatch_max hea
    intro hk
    have hk' : a.address_point_id = b.address_point_id := hk
    show currId < b.min_snapshot_id ∨ b.max_snapshot_id < a.min_snapshot_id
    rcases hab hk' with h' | h' <;> omega
  · have ham := extendsMatch_max hea
    have hbm := extendsMatch_max heb
    intro hk
    have hk' : a.address_point_id = b.address_point_id := hk
    show currId < b.min_snapshot_id ∨ currId < a.min_snapshot_id
    rcases hab hk' with h' | h' <;> omega

/-- C5: every ingest preserves the store invariant. Ranges stay well-formed
(`min_snapshot_id <= max_snapshot_id`, bounded by the snapshot table), every
row of the new store is either an old row (with its key, `min_snapshot_id`,
fields and overflow untouched, and its `max_snapshot_id` either unchanged or
advanced to the new snapshot id) or a fresh version with
`min_snapshot_id = max_snapshot_id =` the new snapshot id, validity ranges
of a key never overlap, and hence at most one row-version per key is active
in any snapshot. -/
theorem c5_store_invariant_preserved :
    ∀ (staged : List StagedRow) (fn : String) (st : DBState),
      StoreInv st →
      (staged.map (fun s => s.address_point_id)).Nodup →
      StoreInv (importGeojson staged fn st).2 ∧
      (∀ rw ∈ (importGeojson staged fn st).2.addresses,
        (∃ r₀ ∈ st.addresses,
          rw.address_point_id = r₀.address_point_id ∧
          rw.min_snapshot_id = r₀.min_snapshot_id ∧
          rw.fields = r₀.fields ∧ rw.extra = r₀.extra ∧
          (rw.max_snapshot_id = r₀.max_snapshot_id ∨
            rw.max_snapshot_id = (importGeojson staged fn st).1)) ∨
        (rw.min_snapshot_id = (importGeojson staged fn st).1 ∧
          rw.max_snapshot_id = (importGeojson staged fn st).1)) ∧
      (∀ s' : Nat, (importGeojson staged fn st).2.addresses.Pairwise
        (fun a b => a.address_point_id = b.address_point_id →
          ¬(activeIn s' a = true ∧ activeIn s' b = true))) := by
  intro staged fn st hinv hnd
  have hb := hinv.1
  have hpw := hinv.2
  have main : StoreInv (importGeojson staged fn st).2 ∧
      (∀ rw ∈ (importGeojson staged fn st).2.addresses,
        (∃ r₀ ∈ st.addresses,
          rw.address_point_id = r₀.address_point_id ∧
          rw.min_snapshot_id = r₀.min_snapshot_id ∧
          rw.fields = r₀.fields ∧ rw.extra = r₀.extra ∧
          (rw.max_snapshot_id = r₀.max_snapshot_id ∨
            rw.max_snapshot_id = (importGeojson staged fn st).1)) ∨
        (rw.min_snapshot_id = (importGeojson staged fn st).1 ∧
          rw.max_snapshot_id = (importGeojson staged fn st).1)) := by
    rcases hfind : st.snapshots.find? (fun x => x.filename == fn) with - | s
    · -- fresh filename
      have hid := (@importGeojson_snapshots staged fn st hfind).2
      have hmax' := @maxSnapId_after staged fn st hfind
      rcases he : st.snapshots.isEmpty with - | -
      · -- delta branch
        have haddr := @importGeojson_delta staged fn st hfind he
        have hU : ∀ rw ∈ extendAddrs staged (maxSnapId st) (maxSnapId st + 1)
            st.addresses,
            ∃ r₀ ∈ st.addresses,
              rw.address_point_id = r₀.address_point_id ∧
              rw.min_snapshot_id = r₀.min_snapshot_id ∧
              rw.fields = r₀.fields ∧ rw.extra = r₀.extra ∧
              (rw.max_snapshot_id = r₀.max_snapshot_id ∨
                (rw.max_snapshot_id = maxSnapId st + 1 ∧
                  r₀.max_snapshot_id = maxSnapId st)) := by
          intro rw hrw
          obtain ⟨r₀, hr₀, hcase⟩ := mem_extendAddrs hrw
          rcases hcase with ⟨-, hm, rfl⟩ | ⟨-, rfl⟩
          · exact ⟨r₀, hr₀, rfl, rfl, rfl, rfl, Or.inr ⟨rfl, hm⟩⟩
          · exact ⟨rw, hr₀, rfl, rfl, rfl, rfl, Or.inl rfl⟩
        have hUpw : (extendAddrs staged (maxSnapId st) (maxSnapId st + 1)
            st.addresses).Pairwise disjKey := by
          unfold extendAddrs
          rw [List.pairwise_map]
          refine hpw.imp_of_mem ?_
          intro a b hma hmb hab
          have hba := hb a hma
          have hbb := hb b hmb
          exact ext_disj hba.2.1 hba.2.2 hbb.2.1 hbb.2.2 hab
        have hFpw : ((rowsToInsert staged (maxSnapId st + 1)
            (extendAddrs staged (maxSnapId st) (maxSnapId st + 1) st.addresses)).map
            (freshRow (maxSnapId st + 1))).Pairwise disjKey := by
          rw [List.pairwise_map]
          have h1 := (nodup_keys_pairwise hnd).filter (fun s =>
            !((extendAddrs staged (maxSnapId st) (maxSnapId st + 1)
              st.addresses).any (fun r =>
              r.max_snapshot_id == maxSnapId st + 1 &&
                r.address_point_id == s.address_point_id)))
          refine h1.imp ?_
          intro a b hne hk
          exact absurd hk hne
        have hcross : ∀ a ∈ extendAddrs staged (maxSnapId st) (maxSnapId st + 1)
            st.addresses,
            ∀ c ∈ (rowsToInsert staged (maxSnapId st + 1)
              (extendAddrs staged (maxSnapId st) (maxSnapId st + 1) st.addresses)).map
              (freshRow (maxSnapId st + 1)), disjKey a c := by
          intro a ha c hc hk
          rw [List.mem_map] at hc
          obtain ⟨s', hs', rfl⟩ := hc
          unfold rowsToInsert at hs'
          rw [List.mem_filter, Bool.not_eq_true', List.any_eq_false] at hs'
          by_cases hamax : a.max_snapshot_id = maxSnapId st + 1
          · exact absurd (by
              rw [Bool.and_eq_true]
              exact ⟨beq_iff_eq.mpr hamax, beq_iff_eq.mpr hk⟩) (hs'.2 a ha)
          · obtain ⟨r₀, hr₀, -, -, -, -, hmax⟩ := hU a ha
            have hb₀ := hb r₀ hr₀
            left
            show a.max_snapshot_id < maxSnapId st + 1
            rcases hmax with h' | ⟨h', -⟩
            · omega
            · exact absurd h' hamax
        refine ⟨⟨?_, ?_⟩, ?_⟩
        · -- bounds
          intro rw hrw
          rw [haddr] at hrw
          rw [hmax']
          rcases List.mem_append.mp hrw with hl | hrr
          · obtain ⟨r₀, hr₀, -, hmin, -, -, hmaxc⟩ := hU rw hl
            have hb₀ := hb r₀ hr₀
            rcases hmaxc with h' | ⟨h', -⟩ <;> omega
          · rw [List.mem_map] at hrr
            obtain ⟨s', -, rfl⟩ := hrr
            refine ⟨Nat.le_add_left _ _, Nat.le_refl _, Nat.le_refl _⟩
        · rw [haddr, List.pairwise_append]
          exact ⟨hUpw, hFpw, hcross⟩
        · -- provenance
          intro rw hrw
          rw [haddr] at hrw
          rw [hid]
          rcases List.mem_append.mp hrw with hl | hrr
          · obtain ⟨r₀, hr₀, h1, h2, h3, h4, hmaxc⟩ := hU rw hl
            refine Or.inl ⟨r₀, hr₀, h1, h2, h3, h4, ?_⟩
            rcases hmaxc with h' | ⟨h', -⟩
            · exact Or.inl h'
            · exact Or.inr h'
          · rw [List.mem_map] at hrr
            obtain ⟨s', -, rfl⟩ := hrr
            exact Or.inr ⟨rfl, rfl⟩
      · -- first import
        have haddr := @importGeojson_first staged fn st hfind he
        have haddr_nil : st.addresses = [] := by
          rw [List.eq_nil_iff_forall_not_mem]
          intro r hr
          have hbr := hb r hr
          have hsnil : st.snapshots = [] := List.isEmpty_iff.mp he
          have : maxSnapId st = 0 := by
            unfold maxSnapId maxIdL
            rw [hsnil]
            rfl
          omega
        refine ⟨⟨?_, ?_⟩, ?_⟩
        · intro rw hrw
          rw [haddr, haddr_nil, List.nil_append, List.mem_map] at hrw
          rw [hmax']
          obtain ⟨s', -, rfl⟩ := hrw
          exact ⟨Nat.le_add_left _ _, Nat.le_refl _, Nat.le_refl _⟩
        · rw [haddr, haddr_nil, List.nil_append, List.pairwise_map]
          refine (nodup_keys_pairwise hnd).imp ?_
          intro a b hne hk
          exact absurd hk hne
        · intro rw hrw
          rw [haddr, haddr_nil, List.nil_append, List.mem_map] at hrw
          rw [hid]
          obtain ⟨s', -, rfl⟩ := hrw
          exact Or.inr ⟨rfl, rfl⟩
    · -- filename already present: no-op
      have hshort := @importGeojson_found staged fn st s hfind
      rw [hshort]
      refine ⟨hinv, ?_⟩
      intro rw hrw
      exact Or.inl ⟨rw, hrw, rfl, rfl, rfl, rfl, Or.inl rfl⟩
  refine ⟨main.1, main.2, ?_⟩
  intro s'
  refine main.1.2.imp ?_
  intro a b hab hk hboth
  exact disj_not_both_active hab hk hboth.1 hboth.2

/-- C5 witness: the invariant survives the concrete ingest of the identical
re-submission into the one-snapshot store. -/
theorem c5_store_invariant_preserved_witness :
    StoreInv (importGeojson [cexStagedSame] "b" st1).2 :=
  (c5_store_invariant_preserved [cexStagedSame] "b" st1 (by decide) (by decide)).1

lemma id_le_maxIdL {l : List Snapshot} : ∀ s ∈ l, s.id ≤ maxIdL l := by
  induction l with
  | nil => intro s hs; cases hs
  | cons x xs ih =>
    intro s hs
    rcases List.mem_cons.mp hs with rfl | hs'
    · exact Nat.le_max_left _ _
    · exact Nat.le_trans (ih s hs') (Nat.le_max_right _ _)

/-- The row-count UPDATE touches only the snapshot row of the current id. -/
lemma setRowCount_append {l : List Snapshot} {currId n : Nat} {fn : String}
    (h : ∀ s ∈ l, s.id ≠ currId) :
    (l ++ [(⟨currId, fn, 0⟩ : Snapshot)]).map
      (fun s => if s.id == currId then { s with row_count := n } else s) =
      l ++ [(⟨currId, fn, n⟩ : Snapshot)] := by
  rw [List.map_append]
  congr 1
  · induction l with
    | nil => rfl
    | cons x xs ih =>
      have hx := h x (List.mem_cons_self _ _)
      rw [List.map_cons]
      rw [ih (fun s hs => h s (List.mem_cons_of_mem _ hs))]
      congr 1
      simp [hx]
  · simp

/-- Full result of a first-ever ingest. -/
lemma importGeojson_eq_first {staged : List StagedRow} {fn : String} {st : DBState}
    (hnone : st.snapshots.find? (fun x => x.filename == fn) = none)
    (he : st.snapshots.isEmpty = true) :
    importGeojson staged fn st = (maxSnapId st + 1,
      ⟨st.snapshots ++ [⟨maxSnapId st + 1, fn, staged.length⟩],
        st.addresses ++ staged.map (freshRow (maxSnapId st + 1))⟩) := by
  unfold importGeojson
  rw [hnone]
  simp [he]

/-- Full result of a delta-branch ingest. -/
lemma importGeojson_eq_delta {staged : List StagedRow} {fn : String} {st : DBState}
    (hnone : st.snapshots.find? (fun x => x.filename == fn) = none)
    (hne : st.snapshots.isEmpty = false) :
    importGeojson staged fn st = (maxSnapId st + 1,
      ⟨st.snapshots ++ [⟨maxSnapId st + 1, fn, staged.length⟩],
        extendAddrs staged (maxSnapId st) (maxSnapId st + 1) st.addresses ++
          (rowsToInsert staged (maxSnapId st + 1)
            (extendAddrs staged (maxSnapId st) (maxSnapId st + 1) st.addresses)).map
            (freshRow (maxSnapId st + 1))⟩) := by
  unfold importGeojson
  rw [hnone]
  simp [hne]

lemma importOps_found {staged : List StagedRow} {fn : String} {st : DBState}
    {s : Snapshot} (h : st.snapshots.find? (fun x => x.filename == fn) = some s) :
    importOps staged fn st = [] := by
  unfold importOps
  rw [h]

lemma importOps_first {staged : List StagedRow} {fn : String} {st : DBState}
    (hnone : st.snapshots.find? (fun x => x.filename == fn) = none)
    (he : st.snapshots.isEmpty = true) :
    importOps staged fn st =
      [.insertSnapshot (maxSnapId st + 1) fn, .bulkInsert staged (maxSnapId st + 1),
       .setRowCount staged.length (maxSnapId st + 1), .commit] := by
  unfold importOps
  rw [hnone]
  simp [he]

lemma importOps_delta {staged : List StagedRow} {fn : String} {st : DBState}
    (hnone : st.snapshots.find? (fun x => x.filename == fn) = none)
    (hne : st.snapshots.isEmpty = false) :
    importOps staged fn st =
      [.insertSnapshot (maxSnapId st + 1) fn,
       .extendValidity staged (maxSnapId st) (maxSnapId st + 1),
       .insertNew staged (maxSnapId st + 1),
       .setRowCount staged.length (maxSnapId st + 1), .commit] := by
  unfold importOps
  rw [hnone]
  simp [hne]

/-- C6: ingest is a single transaction. Along the statement list the ingest
issues, the committed store a reader observes stays the pre-ingest store at
every proper prefix (so an abort anywhere leaves the store unchanged), the
single final commit publishes exactly the post-ingest store, and the
statement list is either empty (the already-imported no-op) or ends with its
only commit. -/
theorem c6_ingest_atomic :
    ∀ (staged : List StagedRow) (fn : String) (st : DBState),
      (∀ k : Nat, k < (importOps staged fn st).length →
        (runTx (List.take k (importOps staged fn st)) (st, st)).1 = st) ∧
      (runTx (importOps staged fn st) (st, st)).1 = (importGeojson staged fn st).2 ∧
      (importOps staged fn st = [] ∨
        ∃ pre : List SqlOp, importOps staged fn st = pre ++ [SqlOp.commit] ∧
          SqlOp.commit ∉ pre) := by
  intro staged fn st
  rcases hfind : st.snapshots.find? (fun x => x.filename == fn) with - | s
  · have hidbound : ∀ x ∈ st.snapshots, x.id ≠ maxSnapId st + 1 := by
      intro x hx h
      have := id_le_maxIdL x hx
      unfold maxSnapId at h
      omega
    rcases he : st.snapshots.isEmpty with - | -
    · -- delta
      rw [importOps_delta hfind he, importGeojson_eq_delta hfind he]
      refine ⟨?_, ?_, ?_⟩
      · intro k hk
        simp only [List.length_cons, List.length_nil] at hk
        interval_cases k <;> rfl
      · simp only [runTx, applyOp]
        rw [setRowCount_append hidbound]
      · refine Or.inr ⟨[.insertSnapshot (maxSnapId st + 1) fn,
          .extendValidity staged (maxSnapId st) (maxSnapId st + 1),
          .insertNew staged (maxSnapId st + 1),
          .setRowCount staged.length (maxSnapId st + 1)], rfl, ?_⟩
        simp
    · -- first import
      rw [importOps_first hfind he, importGeojson_eq_first hfind he]
      refine ⟨?_, ?_, ?_⟩
      · intro k hk
        simp only [List.length_cons, List.length_nil] at hk
        interval_cases k <;> rfl
      · simp only [runTx, applyOp]
        rw [setRowCount_append hidbound]
      · refine Or.inr ⟨[.insertSnapshot (maxSnapId st + 1) fn,
          .bulkInsert staged (maxSnapId st + 1),
          .setRowCount staged.length (maxSnapId st + 1)], rfl, ?_⟩
        simp
  · rw [importOps_found hfind, importGeojson_found hfind]
    refine ⟨?_, rfl, Or.inl rfl⟩
    intro k hk
    simp at hk

/-- C6 witness: at the concrete one-snapshot store, the committed state after
two of the five statements is still the pre-ingest store, and the full run
commits exactly the ingest result. -/
theorem c6_ingest_atomic_witness :
    (runTx (List.take 2 (importOps [cexStagedSame] "b" st1)) (st1, st1)).1 = st1 ∧
    (runTx (importOps [cexStagedSame] "b" st1) (st1, st1)).1 =
      (importGeojson [cexStagedSame] "b" st1).2 :=
  ⟨(c6_ingest_atomic [cexStagedSame] "b" st1).1 2 (by decide),
   (c6_ingest_atomic [cexStagedSame] "b" st1).2.1⟩

/-- C8 counterexample: two ingest runs over inputs differing only in failing
records (none versus two: one malformed line and one record without an
entity key) return the same snapshot id and leave identical stores,
including the recorded row count.  The result an ingest hands its caller
therefore carries no skipped-record count, contrary to the claim that one is
reported. -/
theorem c8_counterexample :
    importFile [rawGood] "f" emptySt =
      importFile [rawGood, RawLine.malformed, rawBadKey] "f" emptySt ∧
    parseLine RawLine.malformed = none ∧
    parseLine rawBadKey = none ∧
    parseLine rawGood ≠ none := by decide

/-- C8 amended: per-record parse failures (a malformed line, a missing or
non-numeric entity key) cause only that record to be skipped, never an abort:
dropping a failing record from the input leaves the ingest result unchanged,
and ingest proceeds to create the snapshot, recording the count of
successfully parsed rows (no skipped-record count is reported). -/
theorem c8_parse_failures_skip :
    (∀ (pre post : List RawLine) (bad : RawLine) (fn : String) (st : DBState),
      parseLine bad = none →
      importFile (pre ++ bad :: post) fn st = importFile (pre ++ post) fn st) ∧
    (∀ (lines : List RawLine) (fn : String) (st : DBState),
      (∀ x ∈ st.snapshots, x.filename ≠ fn) →
      (⟨maxSnapId st + 1, fn, (stageRows lines).length⟩ : Snapshot) ∈
        (importFile lines fn st).2.snapshots) := by
  constructor
  · intro pre post bad fn st h
    unfold importFile
    have hstage : stageRows (pre ++ bad :: post) = stageRows (pre ++ post) := by
      unfold stageRows
      rw [List.filterMap_append, List.filterMap_append, List.filterMap_cons_none]
      exact h
    rw [hstage]
  · intro lines fn st hfn
    have hnone : st.snapshots.find? (fun x => x.filename == fn) = none :=
      List.find?_eq_none.mpr (fun x hx => by simp [hfn x hx])
    unfold importFile
    rw [(@importGeojson_snapshots (stageRows lines) fn st hnone).1]
    exact List.mem_append_right _ (List.mem_singleton.mpr rfl)

/-- C8 amended witness: dropping the malformed line changes nothing, and the
snapshot records the one successfully parsed row. -/
theorem c8_parse_failures_skip_witness :
    importFile [rawGood, RawLine.malformed] "g" emptySt =
      importFile [rawGood] "g" emptySt ∧
    (⟨1, "g", 1⟩ : Snapshot) ∈ (importFile [rawGood] "g" emptySt).2.snapshots :=
  ⟨c8_parse_failures_skip.1 [rawGood] [] RawLine.malformed "g" emptySt (by decide),
   c8_parse_failures_skip.2 [rawGood] "g" emptySt (by decide)⟩

end TorontoAddr
